import Mathlib

/-!
Verification of the document-intake web service (Express + MongoDB + pdf-parse).

The service's effectful pipeline is embedded shallowly: every storage or
file-system effect the program performs is recorded as an event, and each
external, fallible collaborator (the PDF parser, the NLP module, the Gemini
SDK, MongoDB itself) is an oracle field of an environment record.  The
functions below mirror, statement by statement, the TypeScript source
(`registerRoutes`, `processDocument`, `enhanceAnalysisWithAI`, the multer
configuration, and the startup recovery sweep).
-/

/-- Status/progress update payload passed to `storage.updateDocument`
(`Partial<Document>` in the source): each field is present or absent. -/
structure DocUpdate where
  status : Option String
  processingProgress : Option Int
  processedAt : Bool
  pageCount : Option Nat
  deriving DecidableEq, Repr

/-- The `DocumentAnalysis` payload stored in an extraction record
(summary, keywords, entities, tables, word/char counts).  Entities are
represented by their rendered text. -/
structure DocumentAnalysis where
  summary : String
  keywords : List String
  entities : List String
  tables : List String
  wordCount : Nat
  characterCount : Nat
  deriving DecidableEq, Repr

/-- One observable effect of the program: a storage write, a file-system
action, or the launching of an asynchronous job. -/
inductive Ev where
  | writeDoc (u : DocUpdate)
  | createDoc (status : String)
  | readFile
  | parsePdf (timeoutMs : Nat)
  | savePage (text : String)
  | saveExtraction (a : DocumentAnalysis)
  | updateExtraction (a : DocumentAnalysis)
  | startAI (text : String)
  | startProcess (path : String)
  | deleteFile
  | deleteDoc
  | saveChat (role : String) (content : String)
  deriving DecidableEq, Repr

/-- Result of `pdf-parse` after the source's defaulting
(`pdfData.text || ""`, with `numpages` still raw before `|| 1`). -/
structure PdfData where
  text : String
  numpages : Nat
  deriving DecidableEq, Repr

/-- Result of `getTextStatistics` from the NLP module. -/
structure TextStats where
  wordCount : Nat
  characterCount : Nat
  deriving DecidableEq, Repr

/-- `pdfData.numpages || 1`: a falsy (zero) page count defaults to 1. -/
def effectivePageCount (n : Nat) : Nat :=
  if n == 0 then 1 else n

/-- `maxTextLength` in `processDocument`: texts are truncated to 50000
characters before analysis. -/
def maxTextLength : Nat := 50000

/-- `const processText = text.length > maxTextLength ?
text.substring(0, maxTextLength) : text`. -/
def truncateForProcessing (text : String) : String :=
  if text.length > maxTextLength then text.take maxTextLength else text

/-- The summary built in `processDocument`: split on runs of `.`, `!`, `?`,
keep sentences whose trimmed length exceeds 20, take the first five, join
with `". "` and append `"."`; fall back to a fixed message. -/
def computeSummary (processText : String) : String :=
  let sentences :=
    ((processText.split (fun c => c == '.' || c == '!' || c == '?')).filter
      (fun s => s.trim.length > 20)).take 5
  if sentences.length > 0 then
    String.intercalate ". " sentences ++ "."
  else
    "No summary available."

/-- Oracle environment for one run of `processDocument`: the outcome of each
fallible external step.  `upd1` through `upd5` are the five `updateDocument`
persistence calls in source order.  Each fallible step is a success flag
(`false` = the call threw or its timeout fired) together with the value it
yields on success; `getTextStatistics` and `nlp` are functions of the text
actually passed to them.  The environment carries no field for the Gemini
enhancement outcome: `processDocument` never awaits that call, so its result
cannot depend on it. -/
structure Env where
  upd1 : Bool
  readOk : Bool
  parseOk : Bool
  pdf : PdfData
  upd2 : Bool
  pageOk : Bool
  statsOk : Bool
  getTextStatistics : String → TextStats
  upd3 : Bool
  nlpOk : Bool
  nlp : String → List String × List String
  upd4 : Bool
  extractionOk : Bool
  upd5 : Bool
  geminiConfigured : Bool

/-- The write performed by the catch block of `processDocument`:
`{ status: "error", processingProgress: -1 }`. -/
def errUpdate : DocUpdate := ⟨some "error", some (-1), false, none⟩

/-- `{ status: "processing", processingProgress: 10 }`. -/
def startUpdate : DocUpdate := ⟨some "processing", some 10, false, none⟩

/-- `{ processingProgress: 25 }`. -/
def progress25 : DocUpdate := ⟨none, some 25, false, none⟩

/-- `{ processingProgress: 40 }`. -/
def progress40 : DocUpdate := ⟨none, some 40, false, none⟩

/-- `{ processingProgress: 60 }`. -/
def progress60 : DocUpdate := ⟨none, some 60, false, none⟩

/-- `{ status: "completed", processedAt: new Date(), pageCount,
processingProgress: 100 }`. -/
def completedUpdate (pageCount : Nat) : DocUpdate :=
  ⟨some "completed", some 100, true, some pageCount⟩

/-- The 30-second budget handed to `withTimeout` around `pdfParse`. -/
def pdfParseTimeoutMs : Nat := 30000

/-- The entity/keyword pair produced by the NLP step: the results of
`extractEntities` and `extractKeywordsFromText` on the (truncated) text, or
the `.catch(() => [[], []])` default when that step failed or timed out. -/
def nlpResult (env : Env) (processText : String) :
    List String × List String :=
  if env.nlpOk then env.nlp processText else ([], [])

/-- The `DocumentAnalysis` object built in `processDocument` and handed to
`storage.createExtraction`: quick summary, at most 15 NLP keywords, the
extracted entities, no tables, and the word/character counts from
`getTextStatistics` — all computed from `processText`. -/
def analysisFor (env : Env) (processText : String) : DocumentAnalysis :=
  ⟨computeSummary processText,
    (nlpResult env processText).2.take 15,
    (nlpResult env processText).1,
    [],
    (env.getTextStatistics processText).wordCount,
    (env.getTextStatistics processText).characterCount⟩

/-- Shallow embedding of `processDocument(documentId, filePath)`.  Returns
the list of effects performed (in order) and whether the promise resolved
(`true`) or rejected (`false`).  Each exit branch spells out the whole
trace performed so far: a failing step short-circuits to the catch block,
which writes `errUpdate` and rethrows.  The NLP step alone carries its own
`.catch(() => [[], []])` and so never short-circuits (`nlpOk` is consulted
only inside `analysisFor`). -/
def processDocument (env : Env) : List Ev × Bool :=
  if !env.upd1 then ([Ev.writeDoc errUpdate], false) else
  if !env.readOk then
    ([Ev.writeDoc startUpdate, Ev.writeDoc errUpdate], false) else
  if !env.parseOk then
    ([Ev.writeDoc startUpdate, Ev.readFile, Ev.writeDoc errUpdate], false) else
  if !env.upd2 then
    ([Ev.writeDoc startUpdate, Ev.readFile, Ev.parsePdf pdfParseTimeoutMs,
      Ev.writeDoc errUpdate], false) else
  if !env.pageOk then
    ([Ev.writeDoc startUpdate, Ev.readFile, Ev.parsePdf pdfParseTimeoutMs,
      Ev.writeDoc progress25, Ev.writeDoc errUpdate], false) else
  if !env.statsOk then
    ([Ev.writeDoc startUpdate, Ev.readFile, Ev.parsePdf pdfParseTimeoutMs,
      Ev.writeDoc progress25, Ev.savePage env.pdf.text,
      Ev.writeDoc errUpdate], false) else
  if !env.upd3 then
    ([Ev.writeDoc startUpdate, Ev.readFile, Ev.parsePdf pdfParseTimeoutMs,
      Ev.writeDoc progress25, Ev.savePage env.pdf.text,
      Ev.writeDoc errUpdate], false) else
  if !env.upd4 then
    ([Ev.writeDoc startUpdate, Ev.readFile, Ev.parsePdf pdfParseTimeoutMs,
      Ev.writeDoc progress25, Ev.savePage env.pdf.text,
      Ev.writeDoc progress40, Ev.writeDoc errUpdate], false) else
  if !env.extractionOk then
    ([Ev.writeDoc startUpdate, Ev.readFile, Ev.parsePdf pdfParseTimeoutMs,
      Ev.writeDoc progress25, Ev.savePage env.pdf.text,
      Ev.writeDoc progress40, Ev.writeDoc progress60,
      Ev.writeDoc errUpdate], false) else
  if !env.upd5 then
    ([Ev.writeDoc startUpdate, Ev.readFile, Ev.parsePdf pdfParseTimeoutMs,
      Ev.writeDoc progress25, Ev.savePage env.pdf.text,
      Ev.writeDoc progress40, Ev.writeDoc progress60,
      Ev.saveExtraction (analysisFor env (truncateForProcessing env.pdf.text)),
      Ev.writeDoc errUpdate], false) else
  if env.geminiConfigured then
    ([Ev.writeDoc startUpdate, Ev.readFile, Ev.parsePdf pdfParseTimeoutMs,
      Ev.writeDoc progress25, Ev.savePage env.pdf.text,
      Ev.writeDoc progress40, Ev.writeDoc progress60,
      Ev.saveExtraction (analysisFor env (truncateForProcessing env.pdf.text)),
      Ev.writeDoc (completedUpdate (effectivePageCount env.pdf.numpages)),
      Ev.startAI env.pdf.text], true)
  else
    ([Ev.writeDoc startUpdate, Ev.readFile, Ev.parsePdf pdfParseTimeoutMs,
      Ev.writeDoc progress25, Ev.savePage env.pdf.text,
      Ev.writeDoc progress40, Ev.writeDoc progress60,
      Ev.saveExtraction (analysisFor env (truncateForProcessing env.pdf.text)),
      Ev.writeDoc (completedUpdate (effectivePageCount env.pdf.numpages))],
      true)

/-- `maxTextLength` in `enhanceAnalysisWithAI`: text sent to the AI is
truncated to 5000 characters. -/
def aiMaxTextLength : Nat := 5000

/-- `const textForAI = text.length > maxTextLength ?
text.substring(0, maxTextLength) : text`. -/
def truncateForAI (text : String) : String :=
  if text.length > aiMaxTextLength then text.take aiMaxTextLength else text

/-- The 45-second budget handed to `withTimeout` around the two Gemini
calls in `enhanceAnalysisWithAI`. -/
def aiTimeoutMs : Nat := 45000

/-- Oracle environment for one run of `enhanceAnalysisWithAI`.  `ai` is the
joint outcome of `generateDocumentSummary` and `extractKeywords` under the
45-second timeout, as a function of the text actually sent (`none` = a call
rejected or the timeout fired).  `existing` is the outcome of
`storage.getExtraction(documentId, "analysis")`: `none` = the lookup threw,
`some none` = no record, `some (some a)` = the stored analysis.  `updateOk`
is whether `storage.updateExtraction` succeeds. -/
structure AIEnv where
  ai : String → Option (String × List String)
  existing : Option (Option DocumentAnalysis)
  updateOk : Bool

/-- Shallow embedding of `enhanceAnalysisWithAI(documentId, text)`.  Returns
the effects performed and whether the promise resolved; the whole body is a
try/catch whose catch only logs, so the second component is always `true`. -/
def enhanceAnalysisWithAI (env : AIEnv) (text : String) : List Ev × Bool :=
  match env.ai (truncateForAI text) with
  | none => ([], true)
  | some (summary, aiKeywords) =>
    match env.existing with
    | none => ([], true)
    | some none => ([], true)
    | some (some analysis) =>
      if env.updateOk then
        ([Ev.updateExtraction
          { analysis with
            summary := summary,
            keywords := ((aiKeywords ++ analysis.keywords).eraseDups).take 15 }],
          true)
      else ([], true)

/-- A stored document record, with the fields the routes and the sweep
inspect.  `status` is a plain string, as in MongoDB. -/
structure Document where
  userId : String
  filename : String
  originalName : String
  status : String
  deriving DecidableEq, Repr

/-- A multer-accepted upload (`req.file`). -/
structure UploadedFile where
  filename : String
  originalname : String
  mimetype : String
  size : Nat
  path : String
  deriving DecidableEq, Repr

/-- The multer `fileFilter`: only `application/pdf` passes; anything else is
rejected with `new Error("Only PDF files are allowed")`. -/
def fileFilter (mimetype : String) : Except String Unit :=
  if mimetype == "application/pdf" then Except.ok ()
  else Except.error "Only PDF files are allowed"

/-- `limits: { fileSize: 100 * 1024 * 1024 }` in the multer configuration. -/
def uploadSizeLimit : Nat := 100 * 1024 * 1024

/-- Whether multer hands the route a file: the filter accepts its mimetype
and its size is within the configured limit. -/
def uploadAccepted (f : UploadedFile) : Bool :=
  (fileFilter f.mimetype).isOk && f.size ≤ uploadSizeLimit

/-- The `.catch` of the unawaited `processDocument` call in the upload
route writes `{ status: "error" }` (no progress field). -/
def statusErrorOnly : DocUpdate := ⟨some "error", none, false, none⟩

/-- `POST /api/documents/upload` after multer: no file means `400`;
otherwise a document record is created with status `"processing"`,
`processDocument` is kicked off unawaited, and `200` is returned.
`processFails` is whether that detached promise later rejects, firing the
route's `.catch`, which writes `{ status: "error" }`. -/
def uploadRoute (file : Option UploadedFile) (processFails : Bool) :
    List Ev × Nat :=
  match file with
  | none => ([], 400)
  | some f =>
    ([Ev.createDoc "processing", Ev.startProcess f.path] ++
      (if processFails then [Ev.writeDoc statusErrorOnly] else []), 200)

/-- `GET /api/documents/:id`: invalid id strings get `400`; a missing
document `404`; a document owned by someone else `403`; otherwise `200`. -/
def getDocumentRoute (docId : String) (requester : String)
    (doc : Option Document) : List Ev × Nat :=
  if docId == "" || docId == "undefined" || docId == "null" then ([], 400)
  else
    match doc with
    | none => ([], 404)
    | some d =>
      if d.userId != requester then ([], 403)
      else ([], 200)

/-- `DELETE /api/documents/:id`: missing document `404`; foreign owner
`403`; otherwise unlink the backing file when it exists, delete the record,
and return `200`. -/
def deleteRoute (requester : String) (doc : Option Document)
    (fileExists : Bool) : List Ev × Nat :=
  match doc with
  | none => ([], 404)
  | some d =>
    if d.userId != requester then ([], 403)
    else
      ((if fileExists then [Ev.deleteFile] else []) ++ [Ev.deleteDoc], 200)

/-- Whether the backing file still exists after the delete route ran: it
existed before and the route did not unlink it. -/
def fileExistsAfterDelete (fileExists : Bool) (trace : List Ev) : Bool :=
  fileExists && !(trace.contains Ev.deleteFile)

/-- `{ status: "processing", processingProgress: 0 }` written by the retry
route before reprocessing. -/
def retryStartUpdate : DocUpdate := ⟨some "processing", some 0, false, none⟩

/-- `POST /api/documents/:id/retry`: missing document `404`; foreign owner
`403`; missing backing file `404`; otherwise reset status/progress, start
`processDocument` unawaited, and return `200`.  `processFails` is whether
the detached promise later rejects, firing the `.catch` that writes
`{ status: "error", processingProgress: -1 }`. -/
def retryRoute (requester : String) (doc : Option Document)
    (fileExists : Bool) (processFails : Bool) : List Ev × Nat :=
  match doc with
  | none => ([], 404)
  | some d =>
    if d.userId != requester then ([], 403)
    else if !fileExists then ([], 404)
    else
      ([Ev.writeDoc retryStartUpdate, Ev.startProcess d.filename] ++
        (if processFails then [Ev.writeDoc errUpdate] else []), 200)

/-- `GET /api/chat/:documentId`: missing document `404`; foreign owner
`403`; otherwise `200` with the stored messages (a pure read). -/
def getChatRoute (requester : String) (doc : Option Document) :
    List Ev × Nat :=
  match doc with
  | none => ([], 404)
  | some d =>
    if d.userId != requester then ([], 403)
    else ([], 200)

/-- The canned reply used when `generateChatResponse` throws. -/
def chatFallbackReply : String :=
  "I\x27m sorry, I couldn\x27t process your question. Please try again."

/-- `POST /api/chat`: falsy `documentId`/`content` get `400`; missing
document `404`; foreign owner `403`; otherwise the user message is saved,
the AI is asked (`aiResponse = none` means it threw, replaced by the canned
reply), the assistant message is saved, and `200` returned. -/
def postChatRoute (requester : String) (documentId : String)
    (content : String) (doc : Option Document)
    (aiResponse : Option String) : List Ev × Nat :=
  if documentId == "" || content == "" then ([], 400)
  else
    match doc with
    | none => ([], 404)
    | some d =>
      if d.userId != requester then ([], 403)
      else
        let reply := aiResponse.getD chatFallbackReply
        ([Ev.saveChat "user" content, Ev.saveChat "assistant" reply], 200)

/-- The hard-coded owner the startup sweep queries:
`const mockUserId = "mock-user-id-123"`. -/
def mockUserId : String := "mock-user-id-123"

/-- `storage.getDocuments(userId)`: the documents owned by `userId`. -/
def getDocuments (allDocs : List Document) (userId : String) :
    List Document :=
  allDocs.filter (fun d => d.userId == userId)

/-- The startup recovery sweep: fetch the mock user's documents, keep those
stuck in `"processing"`, and for each either restart `processDocument` on
its stored file path (when the file exists) or mark it `"error"`. -/
def startupSweep (allDocs : List Document) (fileExists : String → Bool) :
    List (Document × Ev) :=
  let stuckDocuments :=
    (getDocuments allDocs mockUserId).filter (fun d => d.status == "processing")
  stuckDocuments.map (fun d =>
    (d, if fileExists d.filename then Ev.startProcess d.filename
        else Ev.writeDoc statusErrorOnly))

/-- Any page record saved by `processDocument` stores the full, untruncated
extracted text. -/
theorem savePage_mem_processDocument (env : Env) (t : String)
    (ht : Ev.savePage t ∈ (processDocument env).1) : t = env.pdf.text := by
  obtain ⟨u1, ro, po, pdf, u2, pk, so, gts, u3, no, nlp, u4, eo, u5, g⟩ := env
  cases u1 <;> cases ro <;> cases po <;> cases u2 <;> cases pk <;>
    cases so <;> cases u3 <;> cases u4 <;> cases eo <;> cases u5 <;>
    cases g <;> simp_all [processDocument]

/-- Any extraction record saved by `processDocument` carries exactly the
analysis computed over the truncated text. -/
theorem saveExtraction_mem_processDocument (env : Env) (a : DocumentAnalysis)
    (ha : Ev.saveExtraction a ∈ (processDocument env).1) :
    a = analysisFor env (truncateForProcessing env.pdf.text) := by
  obtain ⟨u1, ro, po, pdf, u2, pk, so, gts, u3, no, nlp, u4, eo, u5, g⟩ := env
  cases u1 <;> cases ro <;> cases po <;> cases u2 <;> cases pk <;>
    cases so <;> cases u3 <;> cases u4 <;> cases eo <;> cases u5 <;>
    cases g <;> simp_all [processDocument]

/-- An all-success environment for `processDocument`: every storage call and
every external call succeeds; `g` is whether Gemini is configured. -/
def happyEnv (pdf : PdfData) (gts : String → TextStats)
    (nlp : String → List String × List String) (g : Bool) : Env :=
  ⟨true, true, true, pdf, true, true, true, gts, true, true, nlp, true, true,
    true, g⟩

/-- C1: on every readable file, `processDocument` performs its steps in
source order — initial progress write, file read, PDF parse under the fixed
30-second timeout, progress writes, page save (full text), extraction save
(analysis of the truncated text), then the completion write carrying
progress 100, a processedAt timestamp and the page count — and only after
that, and only when Gemini is configured, fires the AI-enhancement call,
which is never awaited: the result (resolution included) is by construction
independent of any AI outcome, since `Env` carries none. -/
theorem processDocument_happy_path (pdf : PdfData)
    (gts : String → TextStats) (nlp : String → List String × List String)
    (g : Bool) :
    processDocument (happyEnv pdf gts nlp g) =
      ([Ev.writeDoc startUpdate, Ev.readFile, Ev.parsePdf pdfParseTimeoutMs,
        Ev.writeDoc progress25, Ev.savePage pdf.text, Ev.writeDoc progress40,
        Ev.writeDoc progress60,
        Ev.saveExtraction
          (analysisFor (happyEnv pdf gts nlp g)
            (truncateForProcessing pdf.text)),
        Ev.writeDoc (completedUpdate (effectivePageCount pdf.numpages))] ++
        (if g then [Ev.startAI pdf.text] else []), true) ∧
      pdfParseTimeoutMs = 30000 := by
  refine ⟨?_, rfl⟩
  cases g <;> rfl

/-- Whether one of the steps of `processDocument` that can reject the whole
pipeline failed: any step except the NLP entity/keyword extraction, whose
failure is absorbed by its `.catch(() => [[], []])`. -/
def pipelineFatal (env : Env) : Bool :=
  !env.upd1 || !env.readOk || !env.parseOk || !env.upd2 || !env.pageOk ||
    !env.statsOk || !env.upd3 || !env.upd4 || !env.extractionOk || !env.upd5

/-- An environment in which only the NLP entity/keyword step fails. -/
def nlpFailEnv : Env :=
  ⟨true, true, true, ⟨"", 1⟩, true, true, true, fun _ => ⟨0, 0⟩, true, false,
    fun _ => ([], []), true, true, true, false⟩

/-- C2 counterexample: a failure inside the entity/keyword NLP extraction
(a pre-completion step) leaves the pipeline completing normally — the run
resolves, never writes the error/progress(-1) update, and still writes the
completion update. -/
theorem processDocument_nlp_failure_completes :
    nlpFailEnv.nlpOk = false ∧
      (processDocument nlpFailEnv).2 = true ∧
      Ev.writeDoc errUpdate ∉ (processDocument nlpFailEnv).1 ∧
      Ev.writeDoc (completedUpdate 1) ∈ (processDocument nlpFailEnv).1 := by
  decide

set_option maxHeartbeats 3000000 in
/-- C2 (amended): the pipeline rejects exactly when a fatal step — file
read, PDF parse, statistics, any persistence call — fails, and every such
failure writes `{ status: "error", processingProgress: -1 }`; NLP
entity/keyword failures are excluded, being swallowed by their own catch. -/
theorem processDocument_error_flagging (env : Env) :
    (processDocument env).2 = !pipelineFatal env ∧
      (pipelineFatal env = true →
        Ev.writeDoc errUpdate ∈ (processDocument env).1) := by
  obtain ⟨u1, ro, po, pdf, u2, pk, so, gts, u3, no, nlp, u4, eo, u5, g⟩ := env
  cases u1 <;> cases ro <;> cases po <;> cases u2 <;> cases pk <;>
    cases so <;> cases u3 <;> cases u4 <;> cases eo <;> cases u5 <;>
    cases g <;> simp_all [processDocument, pipelineFatal]

/-- An environment in which the very first persistence call fails. -/
def fatalEnv : Env :=
  ⟨false, true, true, ⟨"", 1⟩, true, true, true, fun _ => ⟨0, 0⟩, true, true,
    fun _ => ([], []), true, true, true, false⟩

/-- Witness for C2 (amended) at a concrete failing environment. -/
theorem processDocument_error_flagging_witness :
    pipelineFatal fatalEnv = true ∧
      Ev.writeDoc errUpdate ∈ (processDocument fatalEnv).1 :=
  ⟨by decide, (processDocument_error_flagging fatalEnv).2 (by decide)⟩

/-- Case analysis of `enhanceAnalysisWithAI`: it either performs nothing
(resolving), or — when the AI calls, the extraction lookup and the update
all succeed — performs exactly one extraction update whose keywords are the
deduplicated merge of AI and stored keywords, capped at 15. -/
theorem enhanceAnalysisWithAI_cases (env : AIEnv) (text : String) :
    enhanceAnalysisWithAI env text = ([], true) ∨
      (∃ s k a,
        env.ai (truncateForAI text) = some (s, k) ∧
        env.existing = some (some a) ∧ env.updateOk = true ∧
        enhanceAnalysisWithAI env text =
          ([Ev.updateExtraction
            { a with
              summary := s,
              keywords := ((k ++ a.keywords).eraseDups).take 15 }], true)) := by
  rcases h1 : env.ai (truncateForAI text) with _ | ⟨s, k⟩
  · left
    simp [enhanceAnalysisWithAI, h1]
  · rcases h2 : env.existing with _ | (_ | a)
    · left
      simp [enhanceAnalysisWithAI, h1, h2]
    · left
      simp [enhanceAnalysisWithAI, h1, h2]
    · cases h3 : env.updateOk
      · left
        simp [enhanceAnalysisWithAI, h1, h2, h3]
      · right
        refine ⟨s, k, a, rfl, rfl, rfl, ?_⟩
        simp [enhanceAnalysisWithAI, h1, h2, h3]

/-- The three status strings the program ever writes. -/
def allowedStatus : List String := ["processing", "completed", "error"]

/-- The progress values the program ever writes. -/
def allowedProgress : List Int := [-1, 0, 10, 25, 40, 60, 100]

/-- A document-record write is well-formed when any status it carries is one
of the three allowed strings and any progress it carries is one of the
concrete values the program writes. -/
def writeOk : Ev → Bool
  | Ev.writeDoc u =>
      (match u.status with
       | none => true
       | some s => allowedStatus.contains s) &&
      (match u.processingProgress with
       | none => true
       | some p => allowedProgress.contains p)
  | Ev.createDoc s => allowedStatus.contains s
  | _ => true

set_option maxHeartbeats 3000000 in
/-- C3: every document-record write performed anywhere in the program — by
the pipeline, the AI enhancement, the upload/retry/delete/chat routes or
the startup sweep — carries a status among "processing", "completed",
"error" and a progress among -1, 0, 10, 25, 40, 60, 100, all of which lie
in -1 or 0..100. -/
theorem document_write_invariant :
    (∀ env : Env, (processDocument env).1.all writeOk = true) ∧
    (∀ aenv : AIEnv, ∀ text,
      (enhanceAnalysisWithAI aenv text).1.all writeOk = true) ∧
    (∀ file pf, (uploadRoute file pf).1.all writeOk = true) ∧
    (∀ r doc fe pf, (retryRoute r doc fe pf).1.all writeOk = true) ∧
    (∀ r doc fe, (deleteRoute r doc fe).1.all writeOk = true) ∧
    (∀ id r doc, (getDocumentRoute id r doc).1.all writeOk = true) ∧
    (∀ r doc, (getChatRoute r doc).1.all writeOk = true) ∧
    (∀ r did c doc ai, (postChatRoute r did c doc ai).1.all writeOk = true) ∧
    (∀ allDocs fileExists, ∀ x ∈ startupSweep allDocs fileExists,
      writeOk x.2 = true) ∧
    (∀ p ∈ allowedProgress, p = -1 ∨ (0 ≤ p ∧ p ≤ 100)) := by
  refine ⟨?_, ?_, ?_, ?_, ?_, ?_, ?_, ?_, ?_, by decide⟩
  · intro env
    obtain ⟨u1, ro, po, pdf, u2, pk, so, gts, u3, no, nlp, u4, eo, u5, g⟩ :=
      env
    cases u1 <;> cases ro <;> cases po <;> cases u2 <;> cases pk <;>
      cases so <;> cases u3 <;> cases u4 <;> cases eo <;> cases u5 <;>
      cases g <;> rfl
  · intro aenv text
    rcases enhanceAnalysisWithAI_cases aenv text with h | ⟨s, k, a, _, _, _, h⟩
    · rw [h]
      rfl
    · rw [h]
      rfl
  · intro file pf
    rcases file with _ | f <;> cases pf <;> rfl
  · intro r doc fe pf
    unfold retryRoute
    repeat' split
    all_goals rfl
  · intro r doc fe
    unfold deleteRoute
    repeat' split
    all_goals rfl
  · intro id r doc
    unfold getDocumentRoute
    repeat' split
    all_goals rfl
  · intro r doc
    unfold getChatRoute
    repeat' split
    all_goals rfl
  · intro r did c doc ai
    unfold postChatRoute
    repeat' split
    all_goals rfl
  · intro allDocs fileExists x hx
    simp only [startupSweep, List.mem_map] at hx
    obtain ⟨d, _, rfl⟩ := hx
    cases h : fileExists d.filename <;> rfl

/-- A document owned by the mock user and stuck in processing. -/
def mockStuckDoc : Document :=
  ⟨"mock-user-id-123", "stuck.pdf", "stuck.pdf", "processing"⟩

/-- Witness for C3 at a concrete sweep element and progress value. -/
theorem document_write_invariant_witness :
    ((mockStuckDoc, Ev.startProcess "stuck.pdf") ∈
        startupSweep [mockStuckDoc] (fun _ => true) ∧
      writeOk (Ev.startProcess "stuck.pdf") = true) ∧
    ((10 : Int) ∈ allowedProgress ∧
      ((10 : Int) = -1 ∨ (0 ≤ (10 : Int) ∧ (10 : Int) ≤ 100))) :=
  ⟨⟨by decide,
      document_write_invariant.2.2.2.2.2.2.2.2.1 [mockStuckDoc] (fun _ => true)
        (mockStuckDoc, Ev.startProcess "stuck.pdf") (by decide)⟩,
    ⟨by decide, document_write_invariant.2.2.2.2.2.2.2.2.2 10 (by decide)⟩⟩

/-- Whether an effect touches the document record itself. -/
def touchesDocument : Ev → Bool
  | Ev.writeDoc _ => true
  | Ev.createDoc _ => true
  | Ev.deleteDoc => true
  | _ => false

/-- C4: `enhanceAnalysisWithAI` never rejects — its whole body sits in a
try/catch whose catch only logs — its timeout constant is 45000 ms, it
never performs any document-record effect (so status and progress stay
untouched, never becoming "error"), and on any failure (AI call or timeout,
extraction lookup, extraction update) it performs no effect at all, leaving
the existing extraction record unchanged. -/
theorem enhanceAnalysisWithAI_failures_suppressed (env : AIEnv)
    (text : String) :
    (enhanceAnalysisWithAI env text).2 = true ∧
      aiTimeoutMs = 45000 ∧
      ((enhanceAnalysisWithAI env text).1.all
        fun e => !touchesDocument e) = true ∧
      (env.ai (truncateForAI text) = none ∨ env.existing = none ∨
          env.updateOk = false →
        (enhanceAnalysisWithAI env text).1 = []) := by
  rcases enhanceAnalysisWithAI_cases env text with h | ⟨s, k, a, h1, h2, h3, h⟩
  · rw [h]
    exact ⟨rfl, rfl, rfl, fun _ => rfl⟩
  · rw [h]
    refine ⟨rfl, rfl, rfl, ?_⟩
    intro hfail
    rcases hfail with hf | hf | hf
    · rw [h1] at hf
      exact absurd hf (by simp)
    · rw [h2] at hf
      exact absurd hf (by simp)
    · rw [h3] at hf
      exact absurd hf (by simp)

/-- A run of the AI enhancement whose Gemini calls fail. -/
def aiFailEnv : AIEnv :=
  ⟨fun _ => none, some (some ⟨"s", [], [], [], 0, 0⟩), true⟩

/-- Witness for C4 at a concrete failing AI environment. -/
theorem enhanceAnalysisWithAI_failures_suppressed_witness :
    aiFailEnv.ai (truncateForAI "doc") = none ∧
      (enhanceAnalysisWithAI aiFailEnv "doc").2 = true ∧
      (enhanceAnalysisWithAI aiFailEnv "doc").1 = [] :=
  ⟨rfl, (enhanceAnalysisWithAI_failures_suppressed aiFailEnv "doc").1,
    (enhanceAnalysisWithAI_failures_suppressed aiFailEnv "doc").2.2.2
      (Or.inl rfl)⟩

/-- A document stuck in "processing" but owned by another user. -/
def strayDoc : Document :=
  ⟨"someone-else", "stray.pdf", "stray.pdf", "processing"⟩

/-- C5 counterexample: the startup sweep queries only the mock user id, so
a document left in "processing" under any other owner is neither restarted
nor marked "error", even though its backing file exists. -/
theorem startupSweep_skips_foreign_owner :
    strayDoc.status = "processing" ∧
      strayDoc.userId ≠ mockUserId ∧
      startupSweep [strayDoc] (fun _ => true) = [] := by
  refine ⟨rfl, by decide, rfl⟩

/-- C5 (amended): the one-time startup sweep re-triggers `processDocument`
for every document of the hard-coded mock user that is stuck in
"processing" — unconditionally, with no check against already-running
jobs — marking it "error" instead exactly when its backing file is gone;
and everything it touches is a mock-user document stuck in "processing". -/
theorem startupSweep_restarts_stuck_docs (allDocs : List Document)
    (fileExists : String → Bool) (d : Document) (hmem : d ∈ allDocs)
    (howner : d.userId = mockUserId) (hstatus : d.status = "processing") :
    (fileExists d.filename = true →
      (d, Ev.startProcess d.filename) ∈ startupSweep allDocs fileExists) ∧
    (fileExists d.filename = false →
      (d, Ev.writeDoc statusErrorOnly) ∈ startupSweep allDocs fileExists) ∧
    (∀ x ∈ startupSweep allDocs fileExists,
      x.1.userId = mockUserId ∧ x.1.status = "processing" ∧ x.1 ∈ allDocs) := by
  have hstuck : d ∈ (getDocuments allDocs mockUserId).filter
      (fun d => d.status == "processing") := by
    simp only [getDocuments, List.mem_filter, beq_iff_eq]
    exact ⟨⟨hmem, howner⟩, hstatus⟩
  refine ⟨?_, ?_, ?_⟩
  · intro hfe
    simp only [startupSweep, List.mem_map]
    exact ⟨d, hstuck, by rw [hfe]; rfl⟩
  · intro hfe
    simp only [startupSweep, List.mem_map]
    exact ⟨d, hstuck, by rw [hfe]; rfl⟩
  · intro x hx
    simp only [startupSweep, List.mem_map] at hx
    obtain ⟨e, he, rfl⟩ := hx
    simp only [getDocuments, List.mem_filter, beq_iff_eq] at he
    exact ⟨he.1.2, he.2, he.1.1⟩

/-- Witness for C5 (amended) at a concrete stuck mock-user document. -/
theorem startupSweep_restarts_stuck_docs_witness :
    (mockStuckDoc ∈ [mockStuckDoc] ∧
      mockStuckDoc.userId = mockUserId ∧
      mockStuckDoc.status = "processing") ∧
    (mockStuckDoc, Ev.startProcess mockStuckDoc.filename) ∈
      startupSweep [mockStuckDoc] (fun _ => true) :=
  ⟨⟨by decide, rfl, rfl⟩,
    (startupSweep_restarts_stuck_docs [mockStuckDoc] (fun _ => true)
      mockStuckDoc (by decide) rfl rfl).1 rfl⟩

/-- C6: when the parsed text exceeds 50000 characters, `processDocument`
truncates it to exactly the first 50000 characters, every statistic,
entity, keyword and summary recorded in the extraction is computed from
that prefix, and the page record saved stores the full untruncated text. -/
theorem processDocument_truncates_at_50000 (env : Env)
    (hlen : env.pdf.text.length > maxTextLength) :
    truncateForProcessing env.pdf.text = env.pdf.text.take maxTextLength ∧
      (∀ t, Ev.savePage t ∈ (processDocument env).1 → t = env.pdf.text) ∧
      (∀ a, Ev.saveExtraction a ∈ (processDocument env).1 →
        a = analysisFor env (env.pdf.text.take maxTextLength)) := by
  have htr : truncateForProcessing env.pdf.text =
      env.pdf.text.take maxTextLength := by
    unfold truncateForProcessing
    rw [if_pos hlen]
  refine ⟨htr, ?_, ?_⟩
  · intro t ht
    exact savePage_mem_processDocument env t ht
  · intro a ha
    rw [saveExtraction_mem_processDocument env a ha, htr]

/-- A text of 50001 identical characters. -/
def bigText : String := String.mk (List.replicate 50001 'a')

theorem bigText_length : bigText.length = 50001 := by
  show (List.replicate 50001 'a').length = 50001
  exact List.length_replicate _ _

/-- An all-success environment whose parsed text exceeds the cap. -/
def bigEnv : Env :=
  ⟨true, true, true, ⟨bigText, 3⟩, true, true, true, fun _ => ⟨7, 9⟩, true,
    true, fun _ => (["e"], ["k"]), true, true, true, false⟩

/-- Witness for C6 at a concrete oversized text. -/
theorem processDocument_truncates_at_50000_witness :
    bigEnv.pdf.text.length > maxTextLength ∧
      (truncateForProcessing bigEnv.pdf.text =
          bigEnv.pdf.text.take maxTextLength ∧
        (∀ t, Ev.savePage t ∈ (processDocument bigEnv).1 →
          t = bigEnv.pdf.text) ∧
        (∀ a, Ev.saveExtraction a ∈ (processDocument bigEnv).1 →
          a = analysisFor bigEnv (bigEnv.pdf.text.take maxTextLength))) := by
  have hbig : bigEnv.pdf.text.length > maxTextLength := by
    show bigText.length > maxTextLength
    rw [bigText_length]
    decide
  exact ⟨hbig, processDocument_truncates_at_50000 bigEnv hbig⟩

/-- C7: the multer file filter accepts exactly the mimetype
"application/pdf", rejecting anything else with the fixed error; the size
limit is 100MB; an upload is handed to the route iff it is a PDF within
that limit; and for every accepted upload the route creates the document
record with status "processing" as its first effect and responds 200,
while a missing file yields 400 with no effect. -/
theorem upload_policy :
    (∀ m, m ≠ "application/pdf" →
      fileFilter m = Except.error "Only PDF files are allowed") ∧
    fileFilter "application/pdf" = Except.ok () ∧
    uploadSizeLimit = 100 * 1024 * 1024 ∧
    (∀ f : UploadedFile, uploadAccepted f = true ↔
      (f.mimetype = "application/pdf" ∧ f.size ≤ uploadSizeLimit)) ∧
    (∀ f pf, (uploadRoute (some f) pf).2 = 200 ∧
      (uploadRoute (some f) pf).1.head? = some (Ev.createDoc "processing")) ∧
    (∀ pf, uploadRoute none pf = ([], 400)) := by
  refine ⟨?_, rfl, rfl, ?_, ?_, fun _ => rfl⟩
  · intro m hm
    have hbeq : (m == "application/pdf") = false := by
      simp [hm]
    unfold fileFilter
    rw [hbeq]
    rfl
  · intro f
    by_cases hm : f.mimetype = "application/pdf" <;>
      simp [uploadAccepted, fileFilter, hm, Except.isOk, Except.toBool]
  · intro f pf
    cases pf <;> exact ⟨rfl, rfl⟩

/-- Witness for C7 at a concrete rejected mimetype and accepted upload. -/
theorem upload_policy_witness :
    ("text/plain" ≠ "application/pdf" ∧
      fileFilter "text/plain" = Except.error "Only PDF files are allowed") ∧
    (uploadAccepted ⟨"f.pdf", "f.pdf", "application/pdf", 7, "uploads/f.pdf"⟩ =
        true ↔
      (("application/pdf" : String) = "application/pdf" ∧
        (7 : Nat) ≤ uploadSizeLimit)) :=
  ⟨⟨by decide, upload_policy.1 "text/plain" (by decide)⟩,
    upload_policy.2.2.2.1 ⟨"f.pdf", "f.pdf", "application/pdf", 7,
      "uploads/f.pdf"⟩⟩

/-- C8: each per-document endpoint — get document, delete, retry, get chat
messages, post chat message — answers 403 "Access denied" with no effect
when the document exists but belongs to another user, and 404 with no
effect when the document does not exist. -/
theorem per_document_ownership_checks :
    (∀ id r (d : Document),
      (id == "" || id == "undefined" || id == "null") = false →
      (d.userId == r) = false → getDocumentRoute id r (some d) = ([], 403)) ∧
    (∀ id r, (id == "" || id == "undefined" || id == "null") = false →
      getDocumentRoute id r none = ([], 404)) ∧
    (∀ r (d : Document) fe, (d.userId == r) = false →
      deleteRoute r (some d) fe = ([], 403)) ∧
    (∀ r fe, deleteRoute r none fe = ([], 404)) ∧
    (∀ r (d : Document) fe pf, (d.userId == r) = false →
      retryRoute r (some d) fe pf = ([], 403)) ∧
    (∀ r fe pf, retryRoute r none fe pf = ([], 404)) ∧
    (∀ r (d : Document), (d.userId == r) = false →
      getChatRoute r (some d) = ([], 403)) ∧
    (∀ r, getChatRoute r none = ([], 404)) ∧
    (∀ r did c (d : Document) ai, (did == "" || c == "") = false →
      (d.userId == r) = false →
      postChatRoute r did c (some d) ai = ([], 403)) ∧
    (∀ r did c ai, (did == "" || c == "") = false →
      postChatRoute r did c none ai = ([], 404)) := by
  refine ⟨?_, ?_, ?_, fun r fe => rfl, ?_, fun r fe pf => rfl, ?_,
    fun r => rfl, ?_, ?_⟩
  · intro id r d hid h
    simp [getDocumentRoute, hid, bne, h]
  · intro id r hid
    simp [getDocumentRoute, hid]
  · intro r d fe h
    simp [deleteRoute, bne, h]
  · intro r d fe pf h
    simp [retryRoute, bne, h]
  · intro r d h
    simp [getChatRoute, bne, h]
  · intro r did c d ai hne h
    simp [postChatRoute, hne, bne, h]
  · intro r did c ai hne
    simp [postChatRoute, hne]

/-- Witness for C8: a foreign-owned document is refused by the delete
endpoint with no effect. -/
theorem per_document_ownership_checks_witness :
    (strayDoc.userId == "mock-user-id-123") = false ∧
      deleteRoute "mock-user-id-123" (some strayDoc) true = ([], 403) :=
  ⟨by decide,
    per_document_ownership_checks.2.2.1 "mock-user-id-123" strayDoc true
      (by decide)⟩

/-- C9: when the owner deletes a document, the route succeeds (200), the
record deletion is performed, and the backing file no longer exists
afterwards — it is unlinked when present, and when it was already absent
the deletion of the record still succeeds, the trace being just the record
deletion. -/
theorem delete_removes_file (r : String) (d : Document) (fe : Bool)
    (hown : (d.userId == r) = true) :
    (deleteRoute r (some d) fe).2 = 200 ∧
      Ev.deleteDoc ∈ (deleteRoute r (some d) fe).1 ∧
      fileExistsAfterDelete fe (deleteRoute r (some d) fe).1 = false ∧
      (fe = false → (deleteRoute r (some d) fe).1 = [Ev.deleteDoc]) := by
  have hbne : (d.userId != r) = false := by
    simp [bne, hown]
  cases fe
  · have h1 : deleteRoute r (some d) false = ([Ev.deleteDoc], 200) := by
      simp [deleteRoute, hbne]
    rw [h1]
    exact ⟨rfl, by decide, by decide, fun _ => rfl⟩
  · have h1 : deleteRoute r (some d) true =
        ([Ev.deleteFile, Ev.deleteDoc], 200) := by
      simp [deleteRoute, hbne]
    rw [h1]
    refine ⟨rfl, by decide, by decide, ?_⟩
    intro h
    simp at h

/-- Witness for C9 at a concrete owned document, file present and absent. -/
theorem delete_removes_file_witness :
    (mockStuckDoc.userId == "mock-user-id-123") = true ∧
      (deleteRoute "mock-user-id-123" (some mockStuckDoc) true).2 = 200 ∧
      (deleteRoute "mock-user-id-123" (some mockStuckDoc) false).2 = 200 :=
  ⟨by decide,
    (delete_removes_file "mock-user-id-123" mockStuckDoc true (by decide)).1,
    (delete_removes_file "mock-user-id-123" mockStuckDoc false (by decide)).1⟩

/-- C10: every extraction payload the program writes carries at most 15
keywords — both the extraction created by the pipeline from the NLP
keywords and the extraction updated by the AI enhancement after merging
and deduplicating AI keywords with the stored ones. -/
theorem extraction_keywords_bounded :
    (∀ env : Env, ∀ a, Ev.saveExtraction a ∈ (processDocument env).1 →
      a.keywords.length ≤ 15) ∧
    (∀ aenv : AIEnv, ∀ text a,
      Ev.updateExtraction a ∈ (enhanceAnalysisWithAI aenv text).1 →
      a.keywords.length ≤ 15) := by
  constructor
  · intro env a ha
    rw [saveExtraction_mem_processDocument env a ha]
    show ((nlpResult env
      (truncateForProcessing env.pdf.text)).2.take 15).length ≤ 15
    rw [List.length_take]
    exact min_le_left _ _
  · intro aenv text a ha
    rcases enhanceAnalysisWithAI_cases aenv text with h | ⟨s, k, b, _, _, _, h⟩
    · rw [h] at ha
      simp at ha
    · rw [h] at ha
      simp at ha
      subst ha
      show (((k ++ b.keywords).eraseDups.take 15)).length ≤ 15
      rw [List.length_take]
      exact min_le_left _ _

/-- An all-success environment with a couple of NLP keywords. -/
def demoEnv : Env :=
  ⟨true, true, true, ⟨"", 1⟩, true, true, true, fun _ => ⟨0, 0⟩, true, true,
    fun _ => ([], ["k1", "k2"]), true, true, true, false⟩

/-- An AI-enhancement run whose calls all succeed. -/
def aiOkEnv : AIEnv :=
  ⟨fun _ => some ("s2", ["a", "b"]),
    some (some ⟨"s", ["x"], [], [], 0, 0⟩), true⟩

/-- The trace of the all-success demo environment, by computation. -/
theorem processDocument_demoEnv :
    processDocument demoEnv =
      ([Ev.writeDoc startUpdate, Ev.readFile, Ev.parsePdf pdfParseTimeoutMs,
        Ev.writeDoc progress25, Ev.savePage "", Ev.writeDoc progress40,
        Ev.writeDoc progress60,
        Ev.saveExtraction (analysisFor demoEnv (truncateForProcessing "")),
        Ev.writeDoc (completedUpdate 1)], true) := rfl

/-- Witness for C10 at a concrete created and a concrete updated
extraction. -/
theorem extraction_keywords_bounded_witness :
    (Ev.saveExtraction (analysisFor demoEnv (truncateForProcessing "")) ∈
        (processDocument demoEnv).1 ∧
      (analysisFor demoEnv (truncateForProcessing "")).keywords.length ≤ 15) ∧
    (Ev.updateExtraction ⟨"s2", ["a", "b", "x"], [], [], 0, 0⟩ ∈
        (enhanceAnalysisWithAI aiOkEnv "t").1 ∧
      (["a", "b", "x"] : List String).length ≤ 15) :=
  ⟨⟨by rw [processDocument_demoEnv]; simp,
      extraction_keywords_bounded.1 demoEnv
        (analysisFor demoEnv (truncateForProcessing ""))
        (by rw [processDocument_demoEnv]; simp)⟩,
    ⟨by decide,
      extraction_keywords_bounded.2 aiOkEnv "t"
        ⟨"s2", ["a", "b", "x"], [], [], 0, 0⟩ (by decide)⟩⟩
